import Mathlib

/-!
Shallow embedding of the WhatsApp shopping bot (the server-whatsapp-payments
section of src/checkout.js).  JS numbers are modelled as exact rationals,
amounts are in paise, and string helpers mirror the JS string methods used by
the handlers.  Fallible external calls (Delhivery rate quote, Delhivery
shipment creation) are modelled by explicit outcome types that cover every
shape the handler distinguishes, including thrown exceptions.
-/

/-- JS truthiness filter on an optional string: an absent value and the empty
string are both falsy, anything else is kept. -/
def truthyStr : Option String → Option String
  | some s => if s = "" then none else some s
  | none => none

/-- JS `a || b || ''` over two optional strings. -/
def jsOrStr (a b : Option String) : String :=
  ((truthyStr a).orElse fun _ => truthyStr b).getD ""

/-- JS `s.includes(pat)` (substring containment). -/
def jsIncludes (s pat : String) : Bool := decide (pat.data <:+: s.data)

/-- JS `s.toLowerCase()` (ASCII, as all the compared literals are ASCII). -/
def jsToLower (s : String) : String := String.mk (s.data.map Char.toLower)

/-- JS `s.trim()`. -/
def jsTrim (s : String) : String :=
  String.mk (((s.data.dropWhile Char.isWhitespace).reverse.dropWhile
    Char.isWhitespace).reverse)

/-- `normalizePhone`: `(phone || '').replace(/\D/g, "")` keeps the digits only. -/
def normalizePhone (s : String) : String := String.mk (s.data.filter Char.isDigit)

/-- JS object assignment `tbl[k] = v` over an association list. -/
def setAssoc {α : Type} (tbl : List (String × α)) (k : String) (v : α) :
    List (String × α) :=
  (k, v) :: tbl.filter (fun e => e.1 ≠ k)

/-- One catalog order item as the bot reads it from `msg.order.product_items`:
`item_price` is the result of `parseFloat(item.item_price)` (`none` models a
missing or non-numeric value, i.e. NaN) and `quantity` the result of
`parseInt(item.quantity, 10)` (`none` models NaN). -/
structure CatalogItem where
  product_retailer_id : String
  item_price : Option ℚ
  quantity : Option ℕ
deriving DecidableEq

/-- `parseFloat(item.item_price) || 0`: NaN falls back to 0. -/
def parsePriceOr0 (o : Option ℚ) : ℚ := o.getD 0

/-- `parseInt(item.quantity, 10) || 1`: NaN and 0 both fall back to 1. -/
def parseQtyOr1 : Option ℕ → ℕ
  | none => 1
  | some 0 => 1
  | some n => n

/-- The catalog-order branch total (checkout bot, order branch):
`totalAmount += priceRupees * 100 * qty` folded over the items, in paise. -/
def catalogOrderAmount (items : List CatalogItem) : ℚ :=
  items.foldl
    (fun acc it =>
      acc + parsePriceOr0 it.item_price * 100 * (parseQtyOr1 it.quantity : ℚ)) 0

/-- The formula the claim states: sum of `round(item.price * 100) * quantity`. -/
def claimCatalogAmount (items : List CatalogItem) : ℤ :=
  (items.map
    (fun it =>
      round (parsePriceOr0 it.item_price * 100) * (parseQtyOr1 it.quantity : ℤ))).sum

/-- The phone-keyed session record the order branch stores. -/
structure PhoneSession where
  productItems : List CatalogItem
  amount : ℚ
deriving DecidableEq

/-- The `msg.type === "order"` branch: store the items and their computed paise
total against the phone of the sender (`orderSessions[from] = ...`). -/
def catalogOrderStep (tbl : List (String × PhoneSession)) (fr : String)
    (items : List CatalogItem) : List (String × PhoneSession) :=
  setAssoc tbl fr { productItems := items, amount := catalogOrderAmount items }

/-- The `getProductWeight` table (grams per catalog item id). -/
def getProductWeight : List (String × ℕ) :=
  [("43mypu8dye", 120), ("l722c63kq9", 295), ("kkii6r9uvh", 495),
   ("m519x5gv9s", 500), ("294l11gpcm", 1000), ("ezg1lu6edm", 500),
   ("tzz72lpzz2", 1000), ("esltl7pftq", 100), ("obdqyehm1w", 1000)]

/-- Weight lookup; an unknown id yields NaN in JS, modelled as 0 (no claim
depends on the weight value). -/
def weightOf (id : String) : ℕ := (getProductWeight.lookup id).getD 0

/-- The `getProductName` table. -/
def getProductName : List (String × String) :=
  [("43mypu8dye", "Himalayan badri cow ghee 120gm"),
   ("l722c63kq9", "Himalayan badri cow ghee 295gm"),
   ("kkii6r9uvh", "Himalayan badri cow ghee 495gm"),
   ("m519x5gv9s", "Himalayan White Rajma 500gm"),
   ("294l11gpcm", "Himalayan White Rajma 1kg"),
   ("ezg1lu6edm", "Himalayan Red Rajma 500gm"),
   ("tzz72lpzz2", "Himalayan Red Rajma 1kg"),
   ("esltl7pftq", "Wild Himalayan Tempering Spice"),
   ("obdqyehm1w", "Himalayan Red Rice")]

/-- Name lookup; an unknown id concatenates as the string "undefined" in JS. -/
def nameOf (id : String) : String := (getProductName.lookup id).getD "undefined"

/-- COD-branch shipment weight: `getProductWeight[id] * quantity` summed (the
raw quantity is used; a missing quantity gives NaN in JS, modelled as 0 — no
claim depends on the weight). -/
def totalWeight (items : List CatalogItem) : ℕ :=
  items.foldl (fun acc it => acc + weightOf it.product_retailer_id * it.quantity.getD 0) 0

/-- COD-branch product description string built by the loop, then
`+= "+ COD charge 150 + shipping charge"`. -/
def finalProductNameCOD (items : List CatalogItem) : String :=
  (items.foldl
    (fun acc it =>
      acc ++ nameOf it.product_retailer_id ++ "(" ++
        (match it.quantity with | some n => toString n | none => "undefined") ++
        ")" ++ "\n") "")
  ++ "+ COD charge 150 + shipping charge"

/-- The parsed delivery-details form payload (`customerData`). -/
structure Customer where
  name : Option String := none
  address1 : Option String := none
  address2 : Option String := none
  pincode : Option String := none
  pin : Option String := none
  phone : Option String := none
  email : Option String := none
  payment_mode : Option String := none
  flow_token : Option String := none
deriving DecidableEq

/-- Shape of the Delhivery rate-quote response as the COD branch consumes it:
`falsy` — the response value is falsy (the `if (chargesResp)` guard fails);
`firstMissing` — the response is truthy but `chargesResp[0]` is undefined, so
reading `.total_amount` throws a TypeError (caught by the same catch);
`first t` — `chargesResp[0]` exists and its `total_amount` field is `t`
(`none` models an absent field). -/
inductive ChargesResp where
  | falsy
  | firstMissing
  | first (total_amount : Option ℚ)
  | objectTotal (total_amount : ℚ)
deriving DecidableEq

/-- Outcome of `await getDelhiveryCharges(...)`: the call throws, or returns a
response of one of the shapes above.  (`objectTotal` is the object-shaped
response only the prepaid-side parser distinguishes; for the COD parser it
behaves like `firstMissing`: `chargesResp[0]` is undefined.) -/
inductive ChargesOutcome where
  | throws
  | ok (resp : ChargesResp)
deriving DecidableEq

/-- The try/catch around the COD rate quote (checkout bot lines 1353-1376),
starting from `session.cod_error = true`.  Returns
`(shippingChargePaise, cod_error)`:
throw → catch sets `cod_error = false`, shipping stays 0;
falsy response → neither branch runs, `cod_error` stays true, shipping 0;
`chargesResp[0]` undefined → TypeError, caught, `cod_error = false`;
truthy `total_amount` → `Math.round(match * 100)` paise, `cod_error` stays true;
falsy `total_amount` (absent or 0) → `cod_error = false`, shipping 0. -/
def codShippingAndFlag : ChargesOutcome → ℤ × Bool
  | .throws => (0, false)
  | .ok .falsy => (0, true)
  | .ok .firstMissing => (0, false)
  | .ok (.objectTotal _) => (0, false)
  | .ok (.first none) => (0, false)
  | .ok (.first (some v)) => if v = 0 then (0, false) else (round (v * 100), true)

/-- Outcome of `await createDelhiveryShipment(...)`: the call throws, or
returns a response whose `.success` field is truthy or falsy. -/
inductive CreateOutcome where
  | throws
  | ok (success : Bool)
deriving DecidableEq

/-- The user-visible messages of the delivery-details flow, as tags. -/
inductive UserMsg where
  | thanksReceived (orderId : String)
  | codPlaced (amountPaise : ℚ)
  | invalidData
  | reviewAndPay (orderId : String)
  | couldNotInitiatePayment
deriving DecidableEq

/-- The fields of the shipment object the COD branch builds for
`createDelhiveryShipment` (the constant and empty fields are omitted;
`cod_amount` and `total_amount` are `String(Math.round(session.amount / 100))`,
kept here as the integer before stringification). -/
structure Shipment where
  name : String
  add : String
  pin : String
  phone : String
  payment_mode : String
  products_desc : String
  cod_amount : ℤ
  total_amount : ℤ
  weight : ℕ
deriving DecidableEq

/-- Observable result of the COD branch: the final session fields, whether a
sheet row was appended, the message sent to the user after the branch decision
(`none` when the handler crashed before sending one), and the HTTP response
(`some 200`, or `none` when an exception escaped the handler unacknowledged). -/
structure CodResult where
  amount : ℚ
  shipping_charge : ℤ
  cod_error : Bool
  payment_mode : String
  shipment : Shipment
  persisted : Bool
  message : Option UserMsg
  response : Option ℕ
deriving DecidableEq

/-- The COD branch of the `nfm_reply` handler (checkout bot lines 1338-1451):
add the fixed COD surcharge of `150 * 100` paise, add the quoted shipping (or
0), build the Delhivery shipment, call `createDelhiveryShipment` — this call is
NOT inside a try/catch, so a throw escapes the async handler and no response is
sent — and, when the creation response has a truthy `success` AND
`session.cod_error` is still true, append the sheet row and confirm; otherwise
send the invalid-data message and do not persist. -/
def codBranch (amount0 : ℚ) (items : List CatalogItem) (cust : Customer)
    (fr orderId : String) (quote : ChargesOutcome) (create : CreateOutcome) :
    CodResult :=
  let codChargePaise : ℤ := 150 * 100
  let sf := codShippingAndFlag quote
  let shippingChargePaise : ℤ := sf.1
  let codError : Bool := sf.2
  let amount : ℚ := amount0 + (codChargePaise : ℚ) + (shippingChargePaise : ℚ)
  let shipment : Shipment :=
    { name := cust.name.getD "Customer"
      add := jsTrim ((cust.address1.getD "") ++ " " ++ (cust.address2.getD ""))
      pin := jsOrStr cust.pincode cust.pin
      phone := jsOrStr cust.phone (some fr)
      payment_mode := "COD"
      products_desc := finalProductNameCOD items
      cod_amount := round (amount / 100)
      total_amount := round (amount / 100)
      weight := totalWeight items }
  match create with
  | .throws =>
      { amount := amount, shipping_charge := shippingChargePaise,
        cod_error := codError, payment_mode := "COD", shipment := shipment,
        persisted := false, message := none, response := none }
  | .ok success =>
      if success && codError then
        { amount := amount, shipping_charge := shippingChargePaise,
          cod_error := codError, payment_mode := "COD", shipment := shipment,
          persisted := true, message := some (.codPlaced amount),
          response := some 200 }
      else
        { amount := amount, shipping_charge := shippingChargePaise,
          cod_error := codError, payment_mode := "COD", shipment := shipment,
          persisted := false, message := some .invalidData,
          response := some 200 }

/-- The COD payment-mode test: the lowercased `payment_mode` equals one of the
three literals. -/
def isCodMode (pm : String) : Bool :=
  pm = "cod" || pm = "cash on delivery" || pm = "cash-on-delivery"

/-- Result of the whole `nfm_reply` flow-submission handler. -/
inductive NfmResult where
  | ignoredTest
  | cod (r : CodResult)
  | prepaid (amount : ℚ) (payment_mode : String)
deriving DecidableEq

/-- The `nfm_reply` flow-submission handler (checkout bot lines 1306-1497):
ignore the meta test payload (`flow_token === 'test_101'`), otherwise branch on
the lowercased payment mode; the COD branch is `codBranch`, the prepaid branch
leaves the session amount unchanged (it only displays a shipping estimate). -/
def nfmReplyHandler (amount0 : ℚ) (items : List CatalogItem) (cust : Customer)
    (fr orderId : String) (quote : ChargesOutcome) (create : CreateOutcome) :
    NfmResult :=
  if cust.flow_token = some "test_101" then .ignoredTest
  else
    if isCodMode (jsToLower (cust.payment_mode.getD "")) then
      .cod (codBranch amount0 items cust fr orderId quote create)
    else .prepaid amount0 "Prepaid"

/-- The shipping-paise formula as the claim words it: the parsed rate-quote
total converted to paise, or 0 when the quote is unparseable. -/
def claimShippingPaise : ChargesOutcome → ℤ
  | .ok (.first (some v)) => if v = 0 then 0 else round (v * 100)
  | _ => 0

/-- The claim-side reading of the data model: the quote was ambiguous or
unparseable (an error, or a response from which no total amount could be
parsed). -/
def quoteUnparseableSpec : ChargesOutcome → Bool
  | .ok (.first (some _)) => false
  | _ => true

/-- What `session.cod_error` actually is after the COD branch: true when the
lookup parsed a truthy total (or the response was falsy and both parse branches
were skipped), false when the lookup threw or no truthy total could be read —
the inverse of the name. -/
def codErrorSpec : ChargesOutcome → Bool
  | .ok .falsy => true
  | .ok (.first (some v)) => if v = 0 then false else true
  | _ => false

/-- Fixture: an item priced 0.125 rupees (an eighth of a rupee, exactly
representable in binary floating point, so the JS computation agrees with the
rational model on it). -/
def c1Item : CatalogItem :=
  { product_retailer_id := "43mypu8dye", item_price := some (1/8), quantity := some 1 }

/-- Fixture: the item of spec Scenario A (price 100.00 rupees, quantity 2). -/
def c1ItemA : CatalogItem :=
  { product_retailer_id := "m519x5gv9s", item_price := some 100, quantity := some 2 }

/-- Fixture: a delivery-details payload choosing cash on delivery. -/
def custCOD : Customer := { payment_mode := some "Cash on Delivery" }

/-- Fixture: an empty delivery-details payload. -/
def custEmpty : Customer := {}

/-- The active keys of the `intentBasedQA` map, in insertion order (the map
values are the canned answers and suggested next intents; the dispatch decision
depends only on the keys, so only the keys are embedded). -/
def intentKeys : List String :=
  ["buy now", "why people love us", "back 2 y ppl <3 us", "recipes",
   "farmer impact", "where we\u2019re from", "why it matters",
   "trace your products", "how it works", "shop & explore",
   "back2 shop & explore", "buy products", "customer reviews",
   "track your order", "our story", "buy later"]

/-- `findIntentBasedResponse`, reduced to the matched key: direct map hit on the
lowercased trimmed message, then the first key matching by substring inclusion
in either direction, then the trace/track/origin/source keyword fallback. -/
def findIntentKey (userMessage : String) : Option String :=
  let normalized := jsTrim (jsToLower userMessage)
  if normalized ∈ intentKeys then some normalized
  else
    match intentKeys.find? (fun key =>
        jsIncludes normalized key || jsIncludes key normalized) with
    | some key => some key
    | none =>
      if jsIncludes normalized "trace" || jsIncludes normalized "track" ||
         jsIncludes normalized "origin" || jsIncludes normalized "source" then
        some "trace your products"
      else none

/-- JS regex word character (letters, digits, underscore). -/
def isWordChar (c : Char) : Bool := c.isAlphanum || c = '_'

/-- Split a character list into its maximal runs of word characters. -/
def wordRunsAux : List Char → List Char → List (List Char)
  | [], acc => if acc.isEmpty then [] else [acc.reverse]
  | c :: cs, acc =>
    if isWordChar c then wordRunsAux cs (c :: acc)
    else if acc.isEmpty then wordRunsAux cs []
    else acc.reverse :: wordRunsAux cs []

/-- The AWB regex test on the message body (14 digits between word
boundaries): the boundaries force the matched digits to be a maximal
word-character run, so the test holds iff some maximal word-character run is
exactly 14 digits. -/
def hasAwb (s : String) : Bool :=
  (wordRunsAux s.data []).any (fun run => run.length == 14 && run.all Char.isDigit)

/-- An inbound messaging event as the dispatch chain sees it: `body` is
`msgBody` after the normalisation at the top of the handler (lowercased and
trimmed for text and button replies; a `list_reply` title is only trimmed),
`isOrder` is the message type being "order", and `hasNfmReply` is the
`nfm_reply` interactive payload being present. -/
structure InEvent where
  body : String
  isOrder : Bool
  hasNfmReply : Bool
deriving DecidableEq

/-- The cases of the inbound-message dispatch, one per branch of the handler. -/
inductive DispatchCase where
  | flowSubmission | mainMenu | intent | awb | greeting
  | sourcingStory | nutritionInfo | viewProducts | haveAQuery
  | howAreYou | fineReply | thanksReply | praiseReply
  | orderEvent | reminderFollowup | aiFallback
deriving DecidableEq

/-- The dispatch of the webhook post handler (checkout bot lines 1306 and
1523-1668), case by case in source order: the `nfm_reply` flow submission is
handled first and returns early; then the if/else chain: exact main-menu
matches, the intent table, the 14-digit AWB regex, the greeting literals, the
canned regex replies, the catalog order event, the reminder follow-up, and the
AI fallback.  The payment webhook is a separate endpoint and never enters this
chain. -/
def dispatchCase (ev : InEvent) (reminded completed : List String)
    (fr : String) : DispatchCase :=
  if ev.hasNfmReply then .flowSubmission
  else if ev.body == "main menu" then .mainMenu
  else if ev.body == "Main Menu" then .mainMenu
  else if (findIntentKey ev.body).isSome then .intent
  else if hasAwb ev.body then .awb
  else if ev.body == "hi" || ev.body == "hello" || ev.body == "hey" then .greeting
  else if jsIncludes (jsToLower ev.body) "sourcing story" ||
      jsIncludes (jsToLower ev.body) "back2 sourcing story" then .sourcingStory
  else if jsIncludes (jsToLower ev.body) "nutrition info" ||
      jsIncludes (jsToLower ev.body) "back 2 nutri info" then .nutritionInfo
  else if jsIncludes (jsToLower ev.body) "view products" then .viewProducts
  else if jsIncludes (jsToLower ev.body) "have a query" then .haveAQuery
  else if jsIncludes ev.body "how are you" then .howAreYou
  else if ev.body == "fine" then .fineReply
  else if jsIncludes ev.body "thank you" || jsIncludes ev.body "thanks" then .thanksReply
  else if jsIncludes ev.body "awesome" || jsIncludes ev.body "amazing" ||
      jsIncludes ev.body "great" then .praiseReply
  else if ev.isOrder || ev.body == "order_received" then .orderEvent
  else if decide (fr ∈ reminded) && !decide (fr ∈ completed) then .reminderFollowup
  else .aiFallback

/-- The dispatch expressed as an explicit ordered list of (case, predicate)
pairs, in the priority order the code actually evaluates. -/
def dispatchPredicates (ev : InEvent) (reminded completed : List String)
    (fr : String) : List (DispatchCase × Bool) :=
  [(.flowSubmission, ev.hasNfmReply),
   (.mainMenu, ev.body == "main menu"),
   (.mainMenu, ev.body == "Main Menu"),
   (.intent, (findIntentKey ev.body).isSome),
   (.awb, hasAwb ev.body),
   (.greeting, ev.body == "hi" || ev.body == "hello" || ev.body == "hey"),
   (.sourcingStory, jsIncludes (jsToLower ev.body) "sourcing story" ||
      jsIncludes (jsToLower ev.body) "back2 sourcing story"),
   (.nutritionInfo, jsIncludes (jsToLower ev.body) "nutrition info" ||
      jsIncludes (jsToLower ev.body) "back 2 nutri info"),
   (.viewProducts, jsIncludes (jsToLower ev.body) "view products"),
   (.haveAQuery, jsIncludes (jsToLower ev.body) "have a query"),
   (.howAreYou, jsIncludes ev.body "how are you"),
   (.fineReply, ev.body == "fine"),
   (.thanksReply, jsIncludes ev.body "thank you" || jsIncludes ev.body "thanks"),
   (.praiseReply, jsIncludes ev.body "awesome" || jsIncludes ev.body "amazing" ||
      jsIncludes ev.body "great"),
   (.orderEvent, ev.isOrder || ev.body == "order_received"),
   (.reminderFollowup, decide (fr ∈ reminded) && !decide (fr ∈ completed))]

/-- First-match-wins dispatch over the ordered predicate list. -/
def priorityDispatch (ev : InEvent) (reminded completed : List String)
    (fr : String) : DispatchCase :=
  match (dispatchPredicates ev reminded completed fr).find? (fun pc => pc.2) with
  | some pc => pc.1
  | none => .aiFallback

/-- Fixture: a free text containing both a 14-digit number and an intent-table
phrase. -/
def c3Event : InEvent :=
  { body := "track your order 12345678901234", isOrder := false, hasNfmReply := false }

/-- The payment entity of the provider payload
(`payload.payment.entity`): reference id, `notes.orderId`, payer contact. -/
structure PayEntity where
  reference_id : Option String := none
  notes_orderId : Option String := none
  contact : Option String := none
deriving DecidableEq

/-- The payment-link entity of the provider payload
(`payload.payment_link.entity`). -/
structure PayLinkEntity where
  reference_id : Option String := none
  customer_contact : Option String := none
deriving DecidableEq

/-- A payment-provider webhook body: the `event` string and the two optional
entities under `payload`. -/
structure PaymentsBody where
  event : Option String := none
  payment : Option PayEntity := none
  payment_link : Option PayLinkEntity := none
deriving DecidableEq

/-- A session as the payments webhook reads and mutates it. -/
structure OrderSession where
  orderId : String
  phone : String
  payment_status : Option String := none
  shipping_charge : Option ℤ := none
deriving DecidableEq

/-- The server state the payments webhook touches: `orderSessions`,
`phoneToOrderIds`, and the sheet log (tracked by appended orderId). -/
structure PayState where
  orderSessions : List (String × OrderSession)
  phoneToOrderIds : List (String × List String)
  sheet : List String
deriving DecidableEq

/-- `payment_link?.reference_id || payment?.reference_id ||
payment?.notes?.orderId || null` (JS truthiness: absent and empty both skip). -/
def referenceIdOf (b : PaymentsBody) : Option String :=
  ((truthyStr (b.payment_link.bind PayLinkEntity.reference_id)).orElse fun _ =>
    (truthyStr (b.payment.bind PayEntity.reference_id)).orElse fun _ =>
      truthyStr (b.payment.bind PayEntity.notes_orderId))

/-- The fallback phone: normalize `payment.contact` when the payment entity is
present; if that is empty and `payment_link.customer.contact` is truthy,
normalize that instead. -/
def phoneOf (b : PaymentsBody) : String :=
  let p1 := match b.payment with
    | some p => normalizePhone (p.contact.getD "")
    | none => ""
  if p1 = "" then
    match b.payment_link.bind PayLinkEntity.customer_contact with
    | some c => normalizePhone c
    | none => ""
  else p1

/-- The fallback session lookup by phone: the most recently created orderId of
that phone (last element of `phoneToOrderIds[phone]`), then the session stored
under it. -/
def fallbackByPhone (st : PayState) (b : PaymentsBody) : Option OrderSession :=
  let phone := phoneOf b
  if phone = "" then none
  else
    match st.phoneToOrderIds.lookup phone with
    | some l => l.getLast?.bind (fun oid => st.orderSessions.lookup oid)
    | none => none

/-- Session resolution of the payments webhook (checkout bot lines 1700-1729):
the session stored under the resolved reference id when both exist, otherwise
the phone fallback. -/
def resolveSession (st : PayState) (b : PaymentsBody) : Option OrderSession :=
  match referenceIdOf b with
  | some rid =>
    match st.orderSessions.lookup rid with
    | some s => some s
    | none => fallbackByPhone st b
  | none => fallbackByPhone st b

/-- The prepaid-side rate-quote parse used by `finalizePaidOrder` (array first
element with truthy `total_amount`, else object with truthy `total_amount`,
else 0; a throw also gives 0). -/
def finalizeShippingPaise : ChargesOutcome → ℤ
  | .ok (.first (some v)) => if v = 0 then 0 else round (v * 100)
  | .ok (.objectTotal v) => if v = 0 then 0 else round (v * 100)
  | _ => 0

/-- The state effect of `finalizePaidOrder`: mark the session paid, store the
re-quoted shipping charge, and append the final sheet row (appended regardless
of the shipment-creation outcome). -/
def finalizePaidOrder (st : PayState) (s : OrderSession)
    (quote : ChargesOutcome) : PayState :=
  let s1 := { s with payment_status := some "paid",
                     shipping_charge := some (finalizeShippingPaise quote) }
  { orderSessions := setAssoc st.orderSessions s.orderId s1
    phoneToOrderIds := st.phoneToOrderIds
    sheet := st.sheet ++ [s.orderId] }

/-- The payments webhook handler (checkout bot lines 1688-1747): resolve the
session; with no session found, acknowledge 200 and change nothing; otherwise
run the finalizer when the event contains "paid", mark the payment failed when
it contains "failed"/"cancel"/"expired", and acknowledge 200. -/
def paymentsWebhook (st : PayState) (b : PaymentsBody)
    (quote : ChargesOutcome) : PayState × ℕ :=
  let status := jsToLower (b.event.getD "")
  match resolveSession st b with
  | none => (st, 200)
  | some s =>
    if jsIncludes status "paid" then (finalizePaidOrder st s quote, 200)
    else if jsIncludes status "failed" || jsIncludes status "cancel" ||
        jsIncludes status "expired" then
      ({ orderSessions := setAssoc st.orderSessions s.orderId
            { s with payment_status := some "failed" }
         phoneToOrderIds := st.phoneToOrderIds
         sheet := st.sheet }, 200)
    else (st, 200)

/-- Fixture: a webhook body whose reference id resolves but has no session. -/
def c7Body : PaymentsBody :=
  { event := some "payment_link.paid",
    payment := some { reference_id := some "OUO-99999" } }

/-- Fixture: an empty server state for the payments webhook. -/
def c7State : PayState :=
  { orderSessions := [], phoneToOrderIds := [], sheet := [] }

/-- A digit character from a `Fin 10`. -/
def digitChar (d : Fin 10) : Char := Char.ofNat (48 + d.val)

/-- The orderId generation of the flow-submission handler:
`new ShortUniqueId({ length: 5, dictionary: 'number' })` draws 5 random digits
(modelled by an arbitrary digit stream, 5 draws per submission), and the id is
`OUO-` followed by them. -/
def orderIdGen (stream : ℕ → Fin 10) (n : ℕ) : String :=
  "OUO-" ++ String.mk ((List.range 5).map (fun i => digitChar (stream (5 * n + i))))

/-- The required format `OUO-<5-digit-number>`. -/
def isOrderIdFormat (s : String) : Bool :=
  match s.data with
  | 'O' :: 'U' :: 'O' :: '-' :: rest =>
    rest.length == 5 && rest.all Char.isDigit
  | _ => false

/-- The events driving the idle-timer logic: an inbound webhook message from a
phone, a timeout firing (the `setTimeout` callback of the given timer handle for
the given phone), and a phone reaching the completed set (reminder follow-up). -/
inductive TimerEv where
  | inbound (phone : String)
  | fire (id : ℕ) (phone : String)
  | complete (phone : String)
deriving DecidableEq

/-- The idle-timer state: a counter of fresh timer handles, the multiset of
armed (not yet cleared or fired) timeouts with the phone each closure captured,
the `idleTimers` map (phone to latest handle), and the `completedUsers` set;
`reminders` logs each sent reminder message. -/
structure TimerState where
  nextId : ℕ
  armed : List (ℕ × String)
  handle : List (String × ℕ)
  completed : List String
  reminders : List String
deriving DecidableEq

/-- `if (idleTimers[from]) clearTimeout(idleTimers[from])`: drop the recorded
handle from the armed timeouts. -/
def cancelTimer (st : TimerState) (p : String) : List (ℕ × String) :=
  match st.handle.lookup p with
  | some t => st.armed.filter (fun e => e.1 ≠ t)
  | none => st.armed

/-- One event of the idle-timer logic (checkout bot lines 1224-1237): an
inbound message from a phone not in `completedUsers` cancels its previous timer
and arms a fresh one; a firing is only possible for a still-armed timeout and
sends the reminder when the phone is still not completed; completion adds the
phone to `completedUsers` (the reminder follow-up branch). -/
def timerStep (st : TimerState) : TimerEv → TimerState
  | .inbound p =>
    if p ∈ st.completed then st
    else
      { nextId := st.nextId + 1
        armed := (st.nextId, p) :: cancelTimer st p
        handle := setAssoc st.handle p st.nextId
        completed := st.completed
        reminders := st.reminders }
  | .fire t p =>
    if (t, p) ∈ st.armed then
      if p ∈ st.completed then
        { st with armed := st.armed.filter (fun e => e ≠ (t, p)) }
      else
        { st with armed := st.armed.filter (fun e => e ≠ (t, p)),
                  reminders := p :: st.reminders }
    else st
  | .complete p => { st with completed := p :: st.completed }

def runTimers (st : TimerState) (evs : List TimerEv) : TimerState :=
  evs.foldl timerStep st

def initTimers : TimerState :=
  { nextId := 0, armed := [], handle := [], completed := [], reminders := [] }

/-- Number of armed (pending) timers whose closure captured phone `p`. -/
def armedFor (p : String) (st : TimerState) : ℕ :=
  st.armed.countP (fun e => e.2 == p)

/-- Number of reminder messages sent to phone `p` so far. -/
def remindersFor (p : String) (st : TimerState) : ℕ :=
  st.reminders.count p

/-- The timer invariant: every armed timeout is the one recorded in
`idleTimers` for its phone, and no phone has two pending timers. -/
def TimerInv (st : TimerState) : Prop :=
  (∀ e ∈ st.armed, st.handle.lookup e.2 = some e.1) ∧
  (∀ q, armedFor q st ≤ 1)

/-- Proof measure: reminders already sent to a phone plus its armed timers. -/
def timerMeasure (p : String) (st : TimerState) : ℕ :=
  remindersFor p st + armedFor p st

-- ===== helper lemmas =====

theorem foldl_add_map_sum (f : CatalogItem → ℚ) (l : List CatalogItem) (a : ℚ) :
    l.foldl (fun acc it => acc + f it) a = a + (l.map f).sum := by
  induction l generalizing a with
  | nil => simp
  | cons x xs ih => simp [ih, add_assoc]

theorem catalogOrderAmount_eq_sum (items : List CatalogItem) :
    catalogOrderAmount items =
      (items.map
        (fun it =>
          parsePriceOr0 it.item_price * 100 * (parseQtyOr1 it.quantity : ℚ))).sum := by
  simpa [catalogOrderAmount] using
    foldl_add_map_sum
      (fun it => parsePriceOr0 it.item_price * 100 * (parseQtyOr1 it.quantity : ℚ))
      items 0

theorem lookup_setAssoc {α : Type} (tbl : List (String × α)) (k : String) (v : α) :
    (setAssoc tbl k v).lookup k = some v := by
  simp [setAssoc, List.lookup]

theorem codBranch_cod_error (amount0 : ℚ) (items : List CatalogItem)
    (cust : Customer) (fr oid : String) (quote : ChargesOutcome)
    (create : CreateOutcome) :
    (codBranch amount0 items cust fr oid quote create).cod_error =
      (codShippingAndFlag quote).2 := by
  rcases create with _ | s
  · rfl
  · simp only [codBranch]; split <;> rfl

theorem codBranch_amount (amount0 : ℚ) (items : List CatalogItem)
    (cust : Customer) (fr oid : String) (quote : ChargesOutcome)
    (create : CreateOutcome) :
    (codBranch amount0 items cust fr oid quote create).amount =
      amount0 + ((150 * 100 : ℤ) : ℚ) + (((codShippingAndFlag quote).1 : ℤ) : ℚ) := by
  rcases create with _ | s
  · rfl
  · simp only [codBranch]; split <;> rfl

theorem codBranch_shipping_charge (amount0 : ℚ) (items : List CatalogItem)
    (cust : Customer) (fr oid : String) (quote : ChargesOutcome)
    (create : CreateOutcome) :
    (codBranch amount0 items cust fr oid quote create).shipping_charge =
      (codShippingAndFlag quote).1 := by
  rcases create with _ | s
  · rfl
  · simp only [codBranch]; split <;> rfl

theorem codBranch_shipment_cod_amount (amount0 : ℚ) (items : List CatalogItem)
    (cust : Customer) (fr oid : String) (quote : ChargesOutcome)
    (create : CreateOutcome) :
    (codBranch amount0 items cust fr oid quote create).shipment.cod_amount =
      round ((codBranch amount0 items cust fr oid quote create).amount / 100) := by
  rcases create with _ | s
  · rfl
  · simp only [codBranch]; split <;> rfl

theorem codBranch_shipment_total_amount (amount0 : ℚ) (items : List CatalogItem)
    (cust : Customer) (fr oid : String) (quote : ChargesOutcome)
    (create : CreateOutcome) :
    (codBranch amount0 items cust fr oid quote create).shipment.total_amount =
      round ((codBranch amount0 items cust fr oid quote create).amount / 100) := by
  rcases create with _ | s
  · rfl
  · simp only [codBranch]; split <;> rfl

theorem codBranch_persisted_ok (amount0 : ℚ) (items : List CatalogItem)
    (cust : Customer) (fr oid : String) (quote : ChargesOutcome) (s : Bool) :
    (codBranch amount0 items cust fr oid quote (.ok s)).persisted =
      (s && (codShippingAndFlag quote).2) := by
  simp only [codBranch]; split <;> simp_all

theorem codBranch_persisted_throws (amount0 : ℚ) (items : List CatalogItem)
    (cust : Customer) (fr oid : String) (quote : ChargesOutcome) :
    (codBranch amount0 items cust fr oid quote .throws).persisted = false := rfl

theorem codBranch_message_ok (amount0 : ℚ) (items : List CatalogItem)
    (cust : Customer) (fr oid : String) (quote : ChargesOutcome) (s : Bool) :
    (codBranch amount0 items cust fr oid quote (.ok s)).message =
      (if s && (codShippingAndFlag quote).2 then
        some (UserMsg.codPlaced (codBranch amount0 items cust fr oid quote (.ok s)).amount)
      else some UserMsg.invalidData) := by
  simp only [codBranch]; split <;> simp_all

theorem codBranch_response_throws (amount0 : ℚ) (items : List CatalogItem)
    (cust : Customer) (fr oid : String) (quote : ChargesOutcome) :
    (codBranch amount0 items cust fr oid quote .throws).response = none := rfl

theorem codShipping_eq_claim (quote : ChargesOutcome) :
    (codShippingAndFlag quote).1 = claimShippingPaise quote := by
  rcases quote with _ | (_ | _ | (_ | v) | v) <;>
    simp only [codShippingAndFlag, claimShippingPaise] <;>
    first | rfl | (split <;> rfl)

theorem catalogOrderAmount_int (items : List CatalogItem)
    (h : ∀ it ∈ items, (parsePriceOr0 it.item_price * 100).den = 1) :
    catalogOrderAmount items = ((claimCatalogAmount items : ℤ) : ℚ) := by
  induction items with
  | nil => simp [catalogOrderAmount, claimCatalogAmount]
  | cons x xs ih =>
    have hx : (parsePriceOr0 x.item_price * 100).den = 1 :=
      h x (List.mem_cons_self x xs)
    have hx2 : ((parsePriceOr0 x.item_price * 100).num : ℚ) =
        parsePriceOr0 x.item_price * 100 := (Rat.den_eq_one_iff _).mp hx
    have hr : round (parsePriceOr0 x.item_price * 100) =
        (parsePriceOr0 x.item_price * 100).num := by
      rw [← hx2]; exact round_intCast _
    have ihx : catalogOrderAmount xs = ((claimCatalogAmount xs : ℤ) : ℚ) :=
      ih (fun it hit => h it (List.mem_cons_of_mem x hit))
    have hclaim : claimCatalogAmount (x :: xs) =
        round (parsePriceOr0 x.item_price * 100) * (parseQtyOr1 x.quantity : ℤ) +
          claimCatalogAmount xs := by
      simp [claimCatalogAmount]
    rw [catalogOrderAmount_eq_sum, List.map_cons, List.sum_cons,
      ← catalogOrderAmount_eq_sum, ihx, hclaim, hr]
    push_cast [hx2]
    ring

-- ===== claim theorems =====

/-- Claim C1 (corrected), counterexample: for the order event whose single item
has price 0.125 rupees and quantity 1, the session amount computed by the
catalog-order branch (12.5 paise, no rounding in the code) differs from the
claimed `round(price * 100) * qty` (13 paise), so the claim is false as
stated. -/
theorem C1_counterexample :
    catalogOrderAmount [c1Item] ≠ ((claimCatalogAmount [c1Item] : ℤ) : ℚ) := by
  norm_num [catalogOrderAmount, claimCatalogAmount, parsePriceOr0, parseQtyOr1,
    c1Item, round_eq]

/-- Claim C1 (amended): after a catalog-order event the amount stored against
the phone of the sender is `price * 100 * qty` summed with no per-item
rounding; this equals the claimed `round(price * 100) * qty` sum whenever every
item price is a whole number of paise, and the total is independent of the
order of the items. -/
theorem C1_catalog_amount (tbl : List (String × PhoneSession)) (fr : String)
    (items items2 : List CatalogItem)
    (hint : ∀ it ∈ items, (parsePriceOr0 it.item_price * 100).den = 1)
    (hperm : items.Perm items2) :
    ((catalogOrderStep tbl fr items).lookup fr).map PhoneSession.amount =
      some ((claimCatalogAmount items : ℤ) : ℚ) ∧
    catalogOrderAmount items = catalogOrderAmount items2 := by
  constructor
  · rw [catalogOrderStep, lookup_setAssoc]
    simpa using catalogOrderAmount_int items hint
  · rw [catalogOrderAmount_eq_sum, catalogOrderAmount_eq_sum]
    exact List.Perm.sum_eq (hperm.map _)

/-- Witness for C1_catalog_amount at spec Scenario A (price 100.00, qty 2):
the stored amount is 20000 paise. -/
theorem C1_catalog_amount_witness :
    (∀ it ∈ [c1ItemA], (parsePriceOr0 it.item_price * 100).den = 1) ∧
    ((catalogOrderStep [] "919000000001" [c1ItemA]).lookup "919000000001").map
        PhoneSession.amount = some ((claimCatalogAmount [c1ItemA] : ℤ) : ℚ) := by
  have h : ∀ it ∈ [c1ItemA], (parsePriceOr0 it.item_price * 100).den = 1 := by
    intro it hit
    simp only [List.mem_singleton] at hit
    subst hit
    norm_num [c1ItemA, parsePriceOr0]
  exact ⟨h, (C1_catalog_amount [] "919000000001" [c1ItemA] [c1ItemA] h
    (List.Perm.refl _)).1⟩

/-- Claim C2 (confirmed): for every delivery-details submission whose
payment_mode matches COD case-insensitively, the final session amount is the
product subtotal plus the fixed 15000-paise COD fee plus the parsed rate-quote
total in paise (`round(total_amount * 100)`), or plus 0 when the quote is
unparseable; a quote total of 50.00 adds exactly 5000 paise. -/
theorem C2_cod_final_amount (amount0 : ℚ) (items : List CatalogItem)
    (cust : Customer) (fr oid : String) (quote : ChargesOutcome)
    (create : CreateOutcome)
    (htok : cust.flow_token ≠ some "test_101")
    (hcod : isCodMode (jsToLower (cust.payment_mode.getD "")) = true) :
    ∃ r : CodResult,
      nfmReplyHandler amount0 items cust fr oid quote create = .cod r ∧
      r.amount = amount0 + 15000 + ((claimShippingPaise quote : ℤ) : ℚ) ∧
      claimShippingPaise (ChargesOutcome.ok (.first (some 50))) = 5000 := by
  refine ⟨codBranch amount0 items cust fr oid quote create, ?_, ?_, ?_⟩
  · rw [nfmReplyHandler, if_neg htok, if_pos hcod]
  · rw [codBranch_amount, codShipping_eq_claim]
    norm_num
  · norm_num [claimShippingPaise, round_eq]

/-- Witness for C2_cod_final_amount: spec Scenario B shape — subtotal 34700
paise, payment_mode "Cash on Delivery", quote total 50.00. -/
theorem C2_cod_final_amount_witness :
    (custCOD.flow_token ≠ some "test_101") ∧
    (isCodMode (jsToLower (custCOD.payment_mode.getD "")) = true) ∧
    ∃ r : CodResult,
      nfmReplyHandler 34700 [] custCOD "919000000003" "OUO-10001"
        (ChargesOutcome.ok (.first (some 50))) (CreateOutcome.ok true) = .cod r ∧
      r.amount = 34700 + 15000 +
        ((claimShippingPaise (ChargesOutcome.ok (.first (some 50))) : ℤ) : ℚ) ∧
      claimShippingPaise (ChargesOutcome.ok (.first (some 50))) = 5000 :=
  ⟨by decide, by decide,
    C2_cod_final_amount 34700 [] custCOD "919000000003" "OUO-10001"
      (ChargesOutcome.ok (.first (some 50))) (CreateOutcome.ok true)
      (by decide) (by decide)⟩

/-- Claim C5 (corrected), counterexample: a COD submission whose rate quote
parses successfully (total 50.00) ends with `cod_error = true`, while the quote
was not ambiguous or unparseable — the claimed equivalence (flag true iff
unparseable) is false at this input. -/
theorem C5_counterexample :
    (codBranch 0 [] custEmpty "917000000002" "OUO-00002"
        (ChargesOutcome.ok (.first (some 50))) (CreateOutcome.ok true)).cod_error
      = true ∧
    quoteUnparseableSpec (ChargesOutcome.ok (.first (some 50))) = false := by
  constructor
  · rw [codBranch_cod_error]
    norm_num [codShippingAndFlag]
  · rfl

/-- Claim C5 (amended): the flag is inverted with respect to its name — after a
COD submission, `cod_error` is true iff the rate quote parsed a truthy total
amount or the response value was falsy; it is false when the lookup threw or no
truthy total could be read from it. -/
theorem C5_cod_error_flag (amount0 : ℚ) (items : List CatalogItem)
    (cust : Customer) (fr oid : String) (quote : ChargesOutcome)
    (create : CreateOutcome) :
    (codBranch amount0 items cust fr oid quote create).cod_error =
      codErrorSpec quote := by
  rw [codBranch_cod_error]
  rcases quote with _ | (_ | _ | (_ | v) | v) <;>
    simp only [codShippingAndFlag, codErrorSpec] <;>
    first | rfl | (split <;> rfl)

/-- Claim C6 (confirmed): when the COD rate-quote call throws, the final amount
is the previous amount plus 15000 paise and no shipping; no sheet row is
appended (whatever the shipment-creation outcome), and when the creation call
returns, the user gets the invalid-data message, not the order-placed
confirmation. -/
theorem C6_quote_throw (amount0 : ℚ) (items : List CatalogItem)
    (cust : Customer) (fr oid : String) (s : Bool) :
    ((codBranch amount0 items cust fr oid .throws (.ok s)).amount =
        amount0 + 15000 ∧
      (codBranch amount0 items cust fr oid .throws (.ok s)).persisted = false ∧
      (codBranch amount0 items cust fr oid .throws (.ok s)).message =
        some UserMsg.invalidData) ∧
    (codBranch amount0 items cust fr oid .throws .throws).persisted = false := by
  refine ⟨⟨?_, ?_, ?_⟩, ?_⟩
  · rw [codBranch_amount]
    norm_num [codShippingAndFlag]
  · rw [codBranch_persisted_ok]
    simp [codShippingAndFlag]
  · rw [codBranch_message_ok]
    simp [codShippingAndFlag]
  · exact codBranch_persisted_throws amount0 items cust fr oid _

/-- Claim C4 (code_bug): the COD branch calls `createDelhiveryShipment` outside
any try/catch, so when that call throws the rejection escapes the async handler
and no HTTP response is produced (`response = none`), contradicting the stated
policy that every webhook handler acknowledges with 200. Shown at a concrete
COD submission with a successfully parsed quote. -/
theorem C4_cod_create_throw_unacknowledged :
    (codBranch 34700 [] custCOD "919000000004" "OUO-10002"
        (ChargesOutcome.ok (.first (some 50))) CreateOutcome.throws).response
      = none ∧
    (codBranch 34700 [] custCOD "919000000004" "OUO-10002"
        (ChargesOutcome.ok (.first (some 50))) (CreateOutcome.ok true)).response
      = some 200 := by
  exact ⟨codBranch_response_throws 34700 [] custCOD "919000000004" "OUO-10002" _,
    by rw [codBranch]; split <;> rfl⟩

/-- Claim C10 (confirmed): the shipment object built by the COD branch sets
`cod_amount` equal to `total_amount`, both `round(session.amount / 100)` rupees
of the full grand total: product subtotal plus the 15000-paise COD fee plus the
shipping charge. -/
theorem C10_cod_collectible (amount0 : ℚ) (items : List CatalogItem)
    (cust : Customer) (fr oid : String) (quote : ChargesOutcome)
    (create : CreateOutcome) :
    (codBranch amount0 items cust fr oid quote create).shipment.cod_amount =
      (codBranch amount0 items cust fr oid quote create).shipment.total_amount ∧
    (codBranch amount0 items cust fr oid quote create).shipment.cod_amount =
      round ((codBranch amount0 items cust fr oid quote create).amount / 100) ∧
    (codBranch amount0 items cust fr oid quote create).amount =
      amount0 + 15000 +
        (((codBranch amount0 items cust fr oid quote create).shipping_charge : ℤ) : ℚ) := by
  refine ⟨?_, codBranch_shipment_cod_amount amount0 items cust fr oid quote create, ?_⟩
  · rw [codBranch_shipment_cod_amount, codBranch_shipment_total_amount]
  · rw [codBranch_amount, codBranch_shipping_charge]
    norm_num

/-- Claim C3 (corrected), counterexample: the free text
"track your order 12345678901234" contains a 14-digit number, yet the dispatch
handles it as an intent-table match (the intent check precedes the AWB check in
the code), not as an AWB tracking request — the claimed priority order is
false at this input. -/
theorem C3_counterexample :
    dispatchCase c3Event [] [] "919000000005" = DispatchCase.intent ∧
    DispatchCase.intent ≠ DispatchCase.awb ∧
    hasAwb c3Event.body = true ∧
    (findIntentKey c3Event.body).isSome = true := by
  exact ⟨by decide, by decide, by decide, by decide⟩

/-- Claim C3 (amended): the dispatcher evaluates its cases first-match-wins in
the fixed source order: flow submission first (early return), then main-menu
exact match, intent table, 14-digit AWB regex, greeting, the canned-reply
regexes, catalog order event, reminder follow-up, and the AI fallback — shown
by the equivalence of the if/else chain with first-match search over the
explicit ordered predicate list (so no event is handled by more than one
case); the payment webhook is a separate endpoint outside this chain. -/
theorem C3_dispatch_priority (ev : InEvent) (reminded completed : List String)
    (fr : String) :
    dispatchCase ev reminded completed fr =
      priorityDispatch ev reminded completed fr := by
  unfold dispatchCase priorityDispatch dispatchPredicates
  generalize ev.hasNfmReply = c1
  generalize (ev.body == "main menu") = c2
  generalize (ev.body == "Main Menu") = c3
  generalize (findIntentKey ev.body).isSome = c4
  generalize hasAwb ev.body = c5
  generalize (ev.body == "hi" || ev.body == "hello" || ev.body == "hey") = c6
  generalize (jsIncludes (jsToLower ev.body) "sourcing story" ||
      jsIncludes (jsToLower ev.body) "back2 sourcing story") = c7
  generalize (jsIncludes (jsToLower ev.body) "nutrition info" ||
      jsIncludes (jsToLower ev.body) "back 2 nutri info") = c8
  generalize jsIncludes (jsToLower ev.body) "view products" = c9
  generalize jsIncludes (jsToLower ev.body) "have a query" = c10
  generalize jsIncludes ev.body "how are you" = c11
  generalize (ev.body == "fine") = c12
  generalize (jsIncludes ev.body "thank you" || jsIncludes ev.body "thanks") = c13
  generalize (jsIncludes ev.body "awesome" || jsIncludes ev.body "amazing" ||
      jsIncludes ev.body "great") = c14
  generalize (ev.isOrder || ev.body == "order_received") = c15
  generalize (decide (fr ∈ reminded) && !decide (fr ∈ completed)) = c16
  cases c1 <;> try rfl
  cases c2 <;> try rfl
  cases c3 <;> try rfl
  cases c4 <;> try rfl
  cases c5 <;> try rfl
  cases c6 <;> try rfl
  cases c7 <;> try rfl
  cases c8 <;> try rfl
  cases c9 <;> try rfl
  cases c10 <;> try rfl
  cases c11 <;> try rfl
  cases c12 <;> try rfl
  cases c13 <;> try rfl
  cases c14 <;> try rfl
  cases c15 <;> try rfl
  cases c16 <;> try rfl

theorem digitChar_isDigit : ∀ d : Fin 10, (digitChar d).isDigit = true := by decide

theorem digitChar_inj {a b : Fin 10} (h : digitChar a = digitChar b) : a = b := by
  revert h; revert a b; decide

theorem orderIdGen_data (stream : ℕ → Fin 10) (n : ℕ) :
    (orderIdGen stream n).data =
      'O' :: 'U' :: 'O' :: '-' ::
        [digitChar (stream (5 * n + 0)), digitChar (stream (5 * n + 1)),
         digitChar (stream (5 * n + 2)), digitChar (stream (5 * n + 3)),
         digitChar (stream (5 * n + 4))] := by
  rfl

/-- Claim C8 (corrected), counterexample: the generator draws 5 random digits
from a fresh `ShortUniqueId` instance per submission, so distinctness is not
guaranteed — under a digit stream that repeats (here constantly 0), two
submissions produce the same orderId `OUO-00000`. -/
theorem C8_counterexample :
    orderIdGen (fun _ => (0 : Fin 10)) 0 = orderIdGen (fun _ => (0 : Fin 10)) 1 ∧
    (0 : ℕ) ≠ 1 := by
  exact ⟨rfl, by norm_num⟩

/-- Claim C8 (amended): every generated orderId matches the required format
`OUO-<5-digit-number>`, and two generated orderIds are equal iff the underlying
five digit draws coincide — so the ids of N submissions are pairwise distinct
iff the random draws are, which no code enforces. -/
theorem C8_orderId_format (stream : ℕ → Fin 10) (n m : ℕ) :
    isOrderIdFormat (orderIdGen stream n) = true ∧
    (orderIdGen stream n = orderIdGen stream m ↔
      (∀ i, i < 5 → stream (5 * n + i) = stream (5 * m + i))) := by
  constructor
  · rw [isOrderIdFormat, orderIdGen_data]
    simp [digitChar_isDigit]
  constructor
  · intro h i hi
    have hd := congrArg String.data h
    rw [orderIdGen_data, orderIdGen_data] at hd
    simp only [List.cons.injEq, and_true, true_and] at hd
    interval_cases i
    · exact digitChar_inj hd.1
    · exact digitChar_inj hd.2.1
    · exact digitChar_inj hd.2.2.1
    · exact digitChar_inj hd.2.2.2.1
    · exact digitChar_inj hd.2.2.2.2
  · intro h
    have h0 : stream (5 * n) = stream (5 * m) := by simpa using h 0 (by norm_num)
    have h1 := h 1 (by norm_num)
    have h2 := h 2 (by norm_num)
    have h3 := h 3 (by norm_num)
    have h4 := h 4 (by norm_num)
    unfold orderIdGen
    rw [show List.range 5 = [0, 1, 2, 3, 4] from rfl]
    simp [h0, h1, h2, h3, h4]

/-- Claim C7 (confirmed): the payments webhook resolves the reference id by
trying `payment_link.reference_id`, then `payment.reference_id`, then
`payment.notes.orderId` (JS truthiness: absent or empty falls through); the
session is the one stored under that id, else the fallback by normalized payer
phone taking the most recently created orderId of that phone; and when no
session is found the handler changes no state and acknowledges 200. -/
theorem C7_payments_resolution (st : PayState) (b : PaymentsBody)
    (quote : ChargesOutcome) :
    (∀ r, truthyStr (b.payment_link.bind PayLinkEntity.reference_id) = some r →
      referenceIdOf b = some r) ∧
    (truthyStr (b.payment_link.bind PayLinkEntity.reference_id) = none →
      ∀ r, truthyStr (b.payment.bind PayEntity.reference_id) = some r →
        referenceIdOf b = some r) ∧
    (truthyStr (b.payment_link.bind PayLinkEntity.reference_id) = none →
      truthyStr (b.payment.bind PayEntity.reference_id) = none →
        referenceIdOf b = truthyStr (b.payment.bind PayEntity.notes_orderId)) ∧
    (∀ rid s, referenceIdOf b = some rid →
      st.orderSessions.lookup rid = some s → resolveSession st b = some s) ∧
    (∀ rid, referenceIdOf b = some rid → st.orderSessions.lookup rid = none →
      resolveSession st b = fallbackByPhone st b) ∧
    (referenceIdOf b = none → resolveSession st b = fallbackByPhone st b) ∧
    (∀ l, phoneOf b ≠ "" → st.phoneToOrderIds.lookup (phoneOf b) = some l →
      fallbackByPhone st b =
        l.getLast?.bind (fun oid => st.orderSessions.lookup oid)) ∧
    (resolveSession st b = none → paymentsWebhook st b quote = (st, 200)) := by
  refine ⟨?_, ?_, ?_, ?_, ?_, ?_, ?_, ?_⟩
  · intro r h
    rw [referenceIdOf, h]
    rfl
  · intro hpl r h
    rw [referenceIdOf, hpl, h]
    rfl
  · intro hpl hp
    rw [referenceIdOf, hpl, hp]
    rfl
  · intro rid s h1 h2
    rw [resolveSession, h1]
    simp only [h2]
  · intro rid h1 h2
    rw [resolveSession, h1]
    simp only [h2]
  · intro h
    rw [resolveSession, h]
  · intro l hph hl
    rw [fallbackByPhone]
    simp only [if_neg hph, hl]
  · intro h
    simp only [paymentsWebhook, h]

/-- Witness for C7_payments_resolution: an empty state and a body carrying only
`payment.reference_id = "OUO-99999"` — no session is stored, so the handler is
a no-op that acknowledges 200. -/
theorem C7_payments_resolution_witness :
    resolveSession c7State c7Body = none ∧
    paymentsWebhook c7State c7Body ChargesOutcome.throws = (c7State, 200) :=
  ⟨by decide,
    (C7_payments_resolution c7State c7Body ChargesOutcome.throws).2.2.2.2.2.2.2
      (by decide)⟩

theorem lookup_filter_ne {α : Type} (tbl : List (String × α)) (k k' : String)
    (h : k' ≠ k) :
    (tbl.filter (fun e => e.1 ≠ k)).lookup k' = tbl.lookup k' := by
  induction tbl with
  | nil => rfl
  | cons x rest ih =>
    obtain ⟨a, b⟩ := x
    by_cases hx : a = k
    · subst hx
      rw [List.filter_cons_of_neg (by simp)]
      rw [ih]
      have hk : (k' == a) = false := by simpa using h
      simp [List.lookup, hk]
    · rw [List.filter_cons_of_pos (by simpa using hx)]
      by_cases hk : k' = a
      · subst hk
        simp [List.lookup]
      · have hk2 : (k' == a) = false := by simpa using hk
        simp only [List.lookup, hk2]
        exact ih

theorem lookup_setAssoc_ne {α : Type} (tbl : List (String × α)) (k k' : String)
    (v : α) (h : k' ≠ k) :
    (setAssoc tbl k v).lookup k' = tbl.lookup k' := by
  unfold setAssoc
  have hk : (k' == k) = false := by simpa using h
  simp only [List.lookup, hk]
  exact lookup_filter_ne tbl k k' h

theorem lookup_setAssoc_self {α : Type} (tbl : List (String × α)) (k : String)
    (v : α) : (setAssoc tbl k v).lookup k = some v := by
  simp [setAssoc, List.lookup]

theorem cancel_subset (st : TimerState) (p : String) :
    ∀ e ∈ cancelTimer st p, e ∈ st.armed := by
  intro e he
  unfold cancelTimer at he
  rcases hcase : st.handle.lookup p with _ | t <;> rw [hcase] at he
  · exact he
  · exact List.mem_of_mem_filter he

theorem cancel_no_p (st : TimerState) (p : String)
    (hinv2 : ∀ e ∈ st.armed, st.handle.lookup e.2 = some e.1) :
    ∀ e ∈ cancelTimer st p, e.2 ≠ p := by
  intro e he hep
  unfold cancelTimer at he
  rcases hcase : st.handle.lookup p with _ | t <;> rw [hcase] at he
  · have h2 := hinv2 e he
    rw [hep, hcase] at h2
    exact Option.noConfusion h2
  · have hmem := List.mem_of_mem_filter he
    have hne : e.1 ≠ t := by simpa using List.of_mem_filter he
    have h2 := hinv2 e hmem
    rw [hep, hcase] at h2
    exact hne (Option.some.inj h2).symm

theorem cancel_countP_le (st : TimerState) (p q : String) :
    (cancelTimer st p).countP (fun e => e.2 == q) ≤ armedFor q st := by
  unfold cancelTimer armedFor
  rcases st.handle.lookup p with _ | t
  · exact le_rfl
  · exact (List.filter_sublist _).countP_le _

theorem timerInv_init : TimerInv initTimers := by
  constructor
  · intro e he; cases he
  · intro q; simp [armedFor, initTimers]

theorem armedFor_cancel_zero (st : TimerState) (p : String)
    (hinv2 : ∀ e ∈ st.armed, st.handle.lookup e.2 = some e.1) :
    (cancelTimer st p).countP (fun e => e.2 == p) = 0 := by
  rw [List.countP_eq_zero]
  intro e he
  simpa using cancel_no_p st p hinv2 e he

theorem timerInv_step (st : TimerState) (e : TimerEv) (hinv : TimerInv st) :
    TimerInv (timerStep st e) := by
  obtain ⟨h1, h2⟩ := hinv
  cases e with
  | inbound p =>
    by_cases hp : p ∈ st.completed
    · simpa [timerStep, hp] using ⟨h1, h2⟩
    · simp only [timerStep, if_neg hp]
      constructor
      · intro e he
        rcases List.mem_cons.mp he with rfl | he2
        · exact lookup_setAssoc_self st.handle p st.nextId
        · have hne := cancel_no_p st p h1 e he2
          rw [lookup_setAssoc_ne st.handle p e.2 st.nextId hne]
          exact h1 e (cancel_subset st p e he2)
      · intro q
        unfold armedFor
        by_cases hq : q = p
        · subst hq
          rw [List.countP_cons_of_pos _ _ (by simp)]
          rw [armedFor_cancel_zero st q h1]
        · rw [List.countP_cons_of_neg _ _ (by simp [Ne.symm hq])]
          exact le_trans (cancel_countP_le st p q) (h2 q)
  | fire t p =>
    by_cases hm : (t, p) ∈ st.armed
    · by_cases hc : p ∈ st.completed
      · simp only [timerStep, if_pos hm, if_pos hc]
        constructor
        · intro e he
          exact h1 e (List.mem_of_mem_filter he)
        · intro q
          exact le_trans ((List.filter_sublist _).countP_le _) (h2 q)
      · simp only [timerStep, if_pos hm, if_neg hc]
        constructor
        · intro e he
          exact h1 e (List.mem_of_mem_filter he)
        · intro q
          exact le_trans ((List.filter_sublist _).countP_le _) (h2 q)
    · simpa [timerStep, hm] using ⟨h1, h2⟩
  | complete p =>
    exact ⟨h1, h2⟩

theorem timerInv_run (st : TimerState) (evs : List TimerEv) (hinv : TimerInv st) :
    TimerInv (runTimers st evs) := by
  induction evs generalizing st with
  | nil => exact hinv
  | cons e rest ih => exact ih _ (timerInv_step st e hinv)

theorem countP_remove_lt (l : List (ℕ × String)) (a : ℕ × String) (p : String)
    (h : a ∈ l) (hp : a.2 = p) :
    (l.filter (fun e => e ≠ a)).countP (fun e => e.2 == p) + 1 ≤
      l.countP (fun e => e.2 == p) := by
  induction l with
  | nil => cases h
  | cons x xs ih =>
    by_cases hx : x = a
    · subst hx
      rw [List.filter_cons_of_neg (by simp)]
      have hpos : List.countP (fun e => e.2 == p) (x :: xs) =
          List.countP (fun e => e.2 == p) xs + 1 :=
        List.countP_cons_of_pos _ _ (by simp [hp])
      rw [hpos]
      have hle : (xs.filter (fun e => e ≠ x)).countP (fun e => e.2 == p) ≤
          xs.countP (fun e => e.2 == p) :=
        (List.filter_sublist xs).countP_le _
      omega
    · rw [List.filter_cons_of_pos (by simpa using hx)]
      have hmem : a ∈ xs := by
        rcases List.mem_cons.mp h with h' | h'
        · exact absurd h'.symm hx
        · exact h'
      have ih2 := ih hmem
      by_cases hxp : (x.2 == p) = true
      · have e1 : List.countP (fun e => e.2 == p) (x :: xs) =
            List.countP (fun e => e.2 == p) xs + 1 :=
          List.countP_cons_of_pos _ _ hxp
        have e2 : List.countP (fun e => e.2 == p)
              (x :: xs.filter (fun e => e ≠ a)) =
            List.countP (fun e => e.2 == p) (xs.filter (fun e => e ≠ a)) + 1 :=
          List.countP_cons_of_pos _ _ hxp
        rw [e1, e2]
        omega
      · have e1 : List.countP (fun e => e.2 == p) (x :: xs) =
            List.countP (fun e => e.2 == p) xs :=
          List.countP_cons_of_neg _ _ (by simpa using hxp)
        have e2 : List.countP (fun e => e.2 == p)
              (x :: xs.filter (fun e => e ≠ a)) =
            List.countP (fun e => e.2 == p) (xs.filter (fun e => e ≠ a)) :=
          List.countP_cons_of_neg _ _ (by simpa using hxp)
        rw [e1, e2]
        exact ih2

theorem fire_measure_le (st : TimerState) (t : ℕ) (q p : String) :
    timerMeasure p (timerStep st (.fire t q)) ≤ timerMeasure p st := by
  by_cases hm : (t, q) ∈ st.armed
  · by_cases hc : q ∈ st.completed
    · simp only [timerMeasure, timerStep, if_pos hm, if_pos hc, armedFor,
        remindersFor]
      have hle : (st.armed.filter (fun e => e ≠ (t, q))).countP
            (fun e => e.2 == p) ≤ st.armed.countP (fun e => e.2 == p) :=
        (List.filter_sublist st.armed).countP_le _
      omega
    · simp only [timerMeasure, timerStep, if_pos hm, if_neg hc, armedFor,
        remindersFor]
      by_cases hq : q = p
      · subst hq
        rw [List.count_cons_self]
        have hrem := countP_remove_lt st.armed (t, q) q hm rfl
        omega
      · rw [List.count_cons_of_ne (Ne.symm hq)]
        have hle : (st.armed.filter (fun e => e ≠ (t, q))).countP
              (fun e => e.2 == p) ≤ st.armed.countP (fun e => e.2 == p) :=
          (List.filter_sublist st.armed).countP_le _
        omega
  · simp [timerStep, hm, timerMeasure]

theorem runTimers_append (st : TimerState) (l1 l2 : List TimerEv) :
    runTimers st (l1 ++ l2) = runTimers (runTimers st l1) l2 := by
  simp [runTimers]

theorem fires_measure_le (fs : List TimerEv) (p : String)
    (h : ∀ e ∈ fs, ∃ t q, e = TimerEv.fire t q) (st : TimerState) :
    timerMeasure p (runTimers st fs) ≤ timerMeasure p st := by
  induction fs generalizing st with
  | nil => exact le_rfl
  | cons e rest ih =>
    obtain ⟨t, q, rfl⟩ := h e (List.mem_cons_self e rest)
    exact le_trans
      (ih (fun e2 he2 => h e2 (List.mem_cons_of_mem _ he2)) (timerStep st (.fire t q)))
      (fire_measure_le st t q p)

theorem inbound_completed (st : TimerState) (p' : String) :
    (timerStep st (.inbound p')).completed = st.completed := by
  simp only [timerStep]
  split <;> rfl

theorem inbound_reminders (st : TimerState) (p' : String) :
    (timerStep st (.inbound p')).reminders = st.reminders := by
  simp only [timerStep]
  split <;> rfl

theorem armedFor_inbound (st : TimerState) (p : String) (hinv : TimerInv st)
    (hp : p ∉ st.completed) :
    armedFor p (timerStep st (.inbound p)) = 1 := by
  simp only [timerStep, if_neg hp, armedFor]
  have hpos : List.countP (fun e => e.2 == p)
        ((st.nextId, p) :: cancelTimer st p) =
      List.countP (fun e => e.2 == p) (cancelTimer st p) + 1 :=
    List.countP_cons_of_pos _ _ (by simp)
  rw [hpos, armedFor_cancel_zero st p hinv.1]

theorem fire_hit_reminders (st : TimerState) (t : ℕ) (p : String)
    (hm : (t, p) ∈ st.armed) (hc : p ∉ st.completed) :
    remindersFor p (timerStep st (.fire t p)) = remindersFor p st + 1 := by
  simp only [timerStep, if_pos hm, if_neg hc, remindersFor]
  exact List.count_cons_self p st.reminders

/-- Claim C9 (confirmed): for a phone not in the completed set, every reachable
state has at most one pending timer per phone; after re-arming twice (two
inbound events within the delay window, i.e. before any firing) exactly one
timer is pending for that phone, any sequence of subsequent timer firings sends
at most one reminder to it, and one firing sequence attains exactly one —
exactly one eventual reminder, not two.  (Real time is abstracted into the
order of events: a fire can only occur while its timer is armed.) -/
theorem C9_idle_timer (evs : List TimerEv) (p : String)
    (hp : p ∉ (runTimers initTimers evs).completed) :
    (∀ q, armedFor q (runTimers initTimers evs) ≤ 1) ∧
    armedFor p (runTimers initTimers (evs ++ [.inbound p, .inbound p])) = 1 ∧
    (∀ fs, (∀ e ∈ fs, ∃ t q, e = TimerEv.fire t q) →
      remindersFor p (runTimers initTimers ((evs ++ [.inbound p, .inbound p]) ++ fs)) ≤
        remindersFor p (runTimers initTimers evs) + 1) ∧
    (∃ fs, (∀ e ∈ fs, ∃ t q, e = TimerEv.fire t q) ∧
      remindersFor p (runTimers initTimers ((evs ++ [.inbound p, .inbound p]) ++ fs)) =
        remindersFor p (runTimers initTimers evs) + 1) := by
  have hinv : TimerInv (runTimers initTimers evs) :=
    timerInv_run initTimers evs timerInv_init
  have hst2 : runTimers initTimers (evs ++ [TimerEv.inbound p, TimerEv.inbound p]) =
      timerStep (timerStep (runTimers initTimers evs) (.inbound p)) (.inbound p) := by
    rw [runTimers_append]
    rfl
  have hinv1 : TimerInv (timerStep (runTimers initTimers evs) (.inbound p)) :=
    timerInv_step _ _ hinv
  have hp1 : p ∉ (timerStep (runTimers initTimers evs) (.inbound p)).completed := by
    rw [inbound_completed]
    exact hp
  have harm2 : armedFor p
      (runTimers initTimers (evs ++ [TimerEv.inbound p, TimerEv.inbound p])) = 1 := by
    rw [hst2]
    exact armedFor_inbound _ p hinv1 hp1
  have hrem2 : remindersFor p
      (runTimers initTimers (evs ++ [TimerEv.inbound p, TimerEv.inbound p])) =
      remindersFor p (runTimers initTimers evs) := by
    rw [hst2]
    simp only [remindersFor, inbound_reminders]
  have hp2 : p ∉ (runTimers initTimers
      (evs ++ [TimerEv.inbound p, TimerEv.inbound p])).completed := by
    rw [hst2, inbound_completed, inbound_completed]
    exact hp
  refine ⟨hinv.2, harm2, ?_, ?_⟩
  · intro fs hfs
    have h2 := fires_measure_le fs p hfs
      (runTimers initTimers (evs ++ [TimerEv.inbound p, TimerEv.inbound p]))
    have h1 : remindersFor p (runTimers (runTimers initTimers
          (evs ++ [TimerEv.inbound p, TimerEv.inbound p])) fs) ≤
        timerMeasure p (runTimers (runTimers initTimers
          (evs ++ [TimerEv.inbound p, TimerEv.inbound p])) fs) :=
      Nat.le_add_right _ _
    have h3 : timerMeasure p (runTimers initTimers
        (evs ++ [TimerEv.inbound p, TimerEv.inbound p])) =
        remindersFor p (runTimers initTimers evs) + 1 := by
      simp only [timerMeasure, harm2, hrem2]
    rw [runTimers_append]
    simp only [timerMeasure] at h2 h3
    omega
  · have hpos : 0 < armedFor p (runTimers initTimers
        (evs ++ [TimerEv.inbound p, TimerEv.inbound p])) := by
      rw [harm2]
      norm_num
    obtain ⟨e, he, hep⟩ := List.countP_pos_iff.mp hpos
    obtain ⟨t0, q0⟩ := e
    have hq0 : q0 = p := by simpa using hep
    subst hq0
    refine ⟨[TimerEv.fire t0 q0], ?_, ?_⟩
    · intro e2 he2
      simp only [List.mem_singleton] at he2
      exact ⟨t0, q0, he2⟩
    · rw [runTimers_append]
      show remindersFor q0 (timerStep _ (.fire t0 q0)) = _
      rw [fire_hit_reminders _ t0 q0 he hp2, hrem2]

/-- Witness for C9_idle_timer: the empty history and a concrete phone. -/
theorem C9_idle_timer_witness :
    ("917111111111" ∉ (runTimers initTimers []).completed) ∧
    armedFor "917111111111" (runTimers initTimers
      ([] ++ [.inbound "917111111111", .inbound "917111111111"])) = 1 :=
  ⟨by decide, (C9_idle_timer [] "917111111111" (by decide)).2.1⟩

/-- Witness for C8_orderId_format at a concrete digit stream. -/
theorem C8_orderId_format_witness :
    isOrderIdFormat (orderIdGen (fun _ => (3 : Fin 10)) 0) = true :=
  (C8_orderId_format (fun _ => (3 : Fin 10)) 0 0).1
